import Mathlib

/-!
Codotaku SDL: the application lifecycle controller.

A shallow embedding of `src/App.h`, `src/App.cpp` and `src/main.cpp`.

The controller (`App`) owns two handles, `m_window` and `m_gpuDevice`, and offers the
four entry points `Init`, `Iterate`, `Event` and `Quit` to the callback run loop of SDL.
Every call into SDL is recorded, with its arguments and the value SDL handed back, in
a trace of `PlatformOp` values.  What SDL hands back is not decided by the program, so each
entry point takes an environment record holding the value of every SDL call it can
make; each of those calls is made at most once per entry (the driver enumeration is
the one indexed call), so one value per call is enough.

Pointers are natural numbers, `0` being the null pointer.  Flag words are natural
numbers combined with bitwise or, as in the C source.  The enumerations and the
numeric constants of SDL are written as the SDL3 headers give them; the theorems use
of the numbers only that the two event types differ and that the hidden flag is a
bit of the flag word passed to `SDL_CreateWindow`.

The implicit destructor of `App` is part of the embedding (`App.destructor`): the
class declares no destructor, so the two `std::unique_ptr` members are destroyed in
the reverse of their order of declaration.
-/

namespace CodotakuSDL

/-! ## SDL types and constants used by the source -/

/-- A raw pointer (`SDL_Window *`, `SDL_GPUDevice *`, ...); `0` is the null pointer. -/
abbrev Ptr := Nat

/-- The null pointer. -/
def nullptr : Ptr := 0

/-- The enumeration `SDL_AppResult` of `SDL_init.h`. -/
inductive SDL_AppResult
  | SDL_APP_CONTINUE
  | SDL_APP_SUCCESS
  | SDL_APP_FAILURE
  deriving DecidableEq

/-- The enumeration `SDL_GPUPresentMode` of `SDL_gpu.h`. -/
inductive SDL_GPUPresentMode
  | SDL_GPU_PRESENTMODE_VSYNC
  | SDL_GPU_PRESENTMODE_IMMEDIATE
  | SDL_GPU_PRESENTMODE_MAILBOX
  deriving DecidableEq

/-- The enumeration `SDL_GPUSwapchainComposition` of `SDL_gpu.h`. -/
inductive SDL_GPUSwapchainComposition
  | SDL_GPU_SWAPCHAINCOMPOSITION_SDR
  | SDL_GPU_SWAPCHAINCOMPOSITION_SDR_LINEAR
  | SDL_GPU_SWAPCHAINCOMPOSITION_HDR_EXTENDED_LINEAR
  | SDL_GPU_SWAPCHAINCOMPOSITION_HDR10_ST2084
  deriving DecidableEq

/-- The enumeration `SDL_GPULoadOp` of `SDL_gpu.h`. -/
inductive SDL_GPULoadOp
  | SDL_GPU_LOADOP_LOAD
  | SDL_GPU_LOADOP_CLEAR
  | SDL_GPU_LOADOP_DONT_CARE
  deriving DecidableEq

/-- The enumeration `SDL_GPUStoreOp` of `SDL_gpu.h`. -/
inductive SDL_GPUStoreOp
  | SDL_GPU_STOREOP_STORE
  | SDL_GPU_STOREOP_DONT_CARE
  | SDL_GPU_STOREOP_RESOLVE
  | SDL_GPU_STOREOP_RESOLVE_AND_STORE
  deriving DecidableEq

/-- The colour record `SDL_FColor`: the source only writes the literals `1.0f` and `0.0f` into it, which
are the rationals 1 and 0; no arithmetic is done on colours. -/
structure SDL_FColor where
  r : ℚ
  g : ℚ
  b : ℚ
  a : ℚ
  deriving DecidableEq

/-- The fields of `SDL_GPUColorTargetInfo` that `OnRender` names in its designated
initialiser (the remaining fields are zero-initialised). -/
structure SDL_GPUColorTargetInfo where
  texture : Ptr
  clear_color : SDL_FColor
  load_op : SDL_GPULoadOp
  store_op : SDL_GPUStoreOp
  deriving DecidableEq

/-- The enumeration `App::AppLogCategory` (App.h, lines 19 to 21). -/
inductive AppLogCategory
  | APP_LOG_CATEGORY_GENERIC
  deriving DecidableEq

/-- The flag `SDL_INIT_VIDEO` (SDL_init.h). -/
def SDL_INIT_VIDEO : Nat := 0x20

/-- The flag `SDL_WINDOW_HIDDEN` (SDL_video.h). -/
def SDL_WINDOW_HIDDEN : Nat := 0x8

/-- The flag `SDL_WINDOW_RESIZABLE` (SDL_video.h). -/
def SDL_WINDOW_RESIZABLE : Nat := 0x20

/-- The flag `SDL_GPU_SHADERFORMAT_SPIRV` (SDL_gpu.h). -/
def SDL_GPU_SHADERFORMAT_SPIRV : Nat := 1 <<< 1

/-- The flag `SDL_GPU_SHADERFORMAT_DXIL` (SDL_gpu.h). -/
def SDL_GPU_SHADERFORMAT_DXIL : Nat := 1 <<< 3

/-- The flag `SDL_GPU_SHADERFORMAT_MSL` (SDL_gpu.h). -/
def SDL_GPU_SHADERFORMAT_MSL : Nat := 1 <<< 4

/-- The event type `SDL_EVENT_QUIT` (SDL_events.h). -/
def SDL_EVENT_QUIT : Nat := 0x100

/-- The event type `SDL_EVENT_WINDOW_CLOSE_REQUESTED` (SDL_events.h). -/
def SDL_EVENT_WINDOW_CLOSE_REQUESTED : Nat := 0x210

/-- The record `SDL_WindowEvent`: the member of the event union read by `App::Event`. -/
structure SDL_WindowEvent where
  windowID : Nat
  deriving DecidableEq

/-- The union `SDL_Event`, as far as `App::Event` reads it: the `type` word and the `window`
member of the union (read whatever the type is, as the C code does). -/
structure SDL_Event where
  type : Nat
  window : SDL_WindowEvent
  deriving DecidableEq

/-! ## The trace of platform calls -/

/-- One call into SDL, with its arguments and (where the call returns something) the
value returned, `ret`. -/
inductive PlatformOp
  | SDL_SetAppMetadata (appname appversion appidentifier : String) (ret : Bool)
  | SDL_Init (flags : Nat) (ret : Bool)
  | SDL_CreateWindow (title : String) (w h : Nat) (flags : Nat) (ret : Ptr)
  | SDL_GetNumGPUDrivers (ret : Nat)
  | SDL_GetGPUDriver (index : Nat) (ret : String)
  | SDL_Log (fmt : String) (args : List String)
  | SDL_GetError
  | SDL_LogError (category : AppLogCategory) (fmt : String)
  | SDL_CreateGPUDevice (format_flags : Nat) (debug_mode : Bool) (name : Option String)
      (ret : Ptr)
  | SDL_GetGPUDeviceDriver (device : Ptr) (ret : String)
  | SDL_ClaimWindowForGPUDevice (device window : Ptr) (ret : Bool)
  | SDL_WindowSupportsGPUPresentMode (device window : Ptr)
      (present_mode : SDL_GPUPresentMode) (ret : Bool)
  | SDL_SetGPUSwapchainParameters (device window : Ptr)
      (swapchain_composition : SDL_GPUSwapchainComposition)
      (present_mode : SDL_GPUPresentMode) (ret : Bool)
  | SDL_ShowWindow (window : Ptr) (ret : Bool)
  | SDL_GetWindowID (window : Ptr) (ret : Nat)
  | SDL_WaitForGPUIdle (device : Ptr) (ret : Bool)
  | SDL_ReleaseWindowFromGPUDevice (device window : Ptr)
  | SDL_AcquireGPUCommandBuffer (device : Ptr) (ret : Ptr)
  | SDL_WaitAndAcquireGPUSwapchainTexture (command_buffer window : Ptr)
      (swapchain_texture : Ptr) (ret : Bool)
  | SDL_BeginGPURenderPass (command_buffer : Ptr)
      (color_target_infos : List SDL_GPUColorTargetInfo) (num_color_targets : Nat)
      (depth_stencil_target_info : Ptr) (ret : Ptr)
  | SDL_EndGPURenderPass (render_pass : Ptr)
  | SDL_SubmitGPUCommandBuffer (command_buffer : Ptr) (ret : Bool)
  | SDL_DestroyWindow (window : Ptr)
  | SDL_DestroyGPUDevice (device : Ptr)
  deriving DecidableEq

/-! ## The controller -/

/-- The data members of `class App` (App.h), in declaration order. -/
structure App where
  m_window : Ptr
  m_gpuDevice : Ptr
  deriving DecidableEq

/-- What a member function leaves behind: the value it returns, the controller
afterwards, and the platform calls it made, in order. -/
structure Outcome (α : Type) where
  ret : α
  app : App
  trace : List PlatformOp

/-- The calls made by `std::unique_ptr::reset` on a handle holding `old`: the deleter
runs on the old pointer when that is not null. -/
def resetOps (old : Ptr) (deleter : Ptr → PlatformOp) : List PlatformOp :=
  if old = nullptr then [] else [deleter old]

/-- The calls made by `SDL_LogError(APP_LOG_CATEGORY_GENERIC, fmt, SDL_GetError())`. -/
def logError (fmt : String) : List PlatformOp :=
  [PlatformOp.SDL_GetError,
   PlatformOp.SDL_LogError AppLogCategory.APP_LOG_CATEGORY_GENERIC fmt]

/-- The constructor `App::App` (App.cpp, line 9): both handles start out null. -/
def App.ctor : App :=
  { m_window := nullptr, m_gpuDevice := nullptr }

/-- The values SDL returns to the calls of `App::Init`. -/
structure InitEnv where
  SDL_SetAppMetadata : Bool
  SDL_Init : Bool
  SDL_CreateWindow : Ptr
  SDL_GetNumGPUDrivers : Nat
  SDL_GetGPUDriver : Nat → String
  SDL_CreateGPUDevice : Option String → Ptr
  SDL_GetGPUDeviceDriver : String
  SDL_ClaimWindowForGPUDevice : Bool
  SDL_WindowSupportsGPUPresentMode : SDL_GPUPresentMode → Bool
  SDL_SetGPUSwapchainParameters : Bool
  SDL_ShowWindow : Bool

/-- The `preferredGpuDrivers` array of `App::Init`, of length zero. -/
def preferredGpuDrivers : List String := []

/-- The loop of `App::Init` over `preferredGpuDrivers`: the first preferred driver found
among `gpuDrivers` is taken and logged, and the loop stops there; `preferredDriver`
stays the empty string when none is found. -/
def selectPreferredDriver (gpuDrivers : List String) :
    List String → String × List PlatformOp
  | [] => ("", [])
  | gpuDriver :: rest =>
    if gpuDriver ∈ gpuDrivers then
      (gpuDriver, [PlatformOp.SDL_Log "Using preferred GPU driver: %s" [gpuDriver]])
    else selectPreferredDriver gpuDrivers rest

/-- The member function `App::Init` (App.cpp, lines 12 to 78).  The window is created
with the flags `SDL_WINDOW_RESIZABLE | SDL_WINDOW_HIDDEN`; the value returned by
`SDL_SetGPUSwapchainParameters` (line 70) is discarded. -/
def App.Init (env : InitEnv) (app : App) : Outcome SDL_AppResult :=
  let t1 : List PlatformOp :=
    [PlatformOp.SDL_SetAppMetadata "Codotaku SDL" "1.0.0" "com.codotaku.codotakusdl"
       env.SDL_SetAppMetadata,
     PlatformOp.SDL_Init SDL_INIT_VIDEO env.SDL_Init]
  if env.SDL_Init = false then
    ⟨SDL_AppResult.SDL_APP_FAILURE, app, t1 ++ logError "Failed to initialize SDL: %s"⟩
  else
    let app1 : App := { app with m_window := env.SDL_CreateWindow }
    let t2 := t1 ++
      [PlatformOp.SDL_CreateWindow "Codotaku SDL" 800 600
         (SDL_WINDOW_RESIZABLE ||| SDL_WINDOW_HIDDEN) env.SDL_CreateWindow] ++
      resetOps app.m_window PlatformOp.SDL_DestroyWindow
    if app1.m_window = nullptr then
      ⟨SDL_AppResult.SDL_APP_FAILURE, app1, t2 ++ logError "Failed to create window: %s"⟩
    else
      let gpuDriverCount := env.SDL_GetNumGPUDrivers
      let gpuDrivers := (List.range gpuDriverCount).map env.SDL_GetGPUDriver
      let t3 := t2 ++ [PlatformOp.SDL_GetNumGPUDrivers gpuDriverCount] ++
        (List.range gpuDriverCount).map
          (fun i => PlatformOp.SDL_GetGPUDriver i (env.SDL_GetGPUDriver i)) ++
        [PlatformOp.SDL_Log "Supported GPU drivers:" []] ++
        gpuDrivers.map (fun supportedGpuDrivers =>
          PlatformOp.SDL_Log "    %s" [supportedGpuDrivers])
      let sel := selectPreferredDriver gpuDrivers preferredGpuDrivers
      let preferredDriver := sel.1
      let name : Option String :=
        if preferredDriver.length ≠ 0 then some preferredDriver else none
      let app2 : App := { app1 with m_gpuDevice := env.SDL_CreateGPUDevice name }
      let t4 := t3 ++ sel.2 ++
        [PlatformOp.SDL_CreateGPUDevice
           (SDL_GPU_SHADERFORMAT_SPIRV ||| SDL_GPU_SHADERFORMAT_DXIL |||
             SDL_GPU_SHADERFORMAT_MSL) true name (env.SDL_CreateGPUDevice name)] ++
        resetOps app1.m_gpuDevice PlatformOp.SDL_DestroyGPUDevice
      if app2.m_gpuDevice = nullptr then
        ⟨SDL_AppResult.SDL_APP_FAILURE, app2,
          t4 ++ logError "Failed to create GPU device: %s"⟩
      else
        let t5 := t4 ++
          [PlatformOp.SDL_GetGPUDeviceDriver app2.m_gpuDevice env.SDL_GetGPUDeviceDriver,
           PlatformOp.SDL_Log "Selected GPU driver: %s" [env.SDL_GetGPUDeviceDriver],
           PlatformOp.SDL_ClaimWindowForGPUDevice app2.m_gpuDevice app2.m_window
             env.SDL_ClaimWindowForGPUDevice]
        if env.SDL_ClaimWindowForGPUDevice = false then
          ⟨SDL_AppResult.SDL_APP_FAILURE, app2,
            t5 ++ logError "Failed to claim window for GPU device: %s"⟩
        else
          let supported := env.SDL_WindowSupportsGPUPresentMode
            SDL_GPUPresentMode.SDL_GPU_PRESENTMODE_MAILBOX
          let presentMode : SDL_GPUPresentMode :=
            if supported then SDL_GPUPresentMode.SDL_GPU_PRESENTMODE_MAILBOX
            else SDL_GPUPresentMode.SDL_GPU_PRESENTMODE_VSYNC
          let t6 := t5 ++
            [PlatformOp.SDL_WindowSupportsGPUPresentMode app2.m_gpuDevice app2.m_window
               SDL_GPUPresentMode.SDL_GPU_PRESENTMODE_MAILBOX supported,
             PlatformOp.SDL_SetGPUSwapchainParameters app2.m_gpuDevice app2.m_window
               SDL_GPUSwapchainComposition.SDL_GPU_SWAPCHAINCOMPOSITION_SDR presentMode
               env.SDL_SetGPUSwapchainParameters,
             PlatformOp.SDL_ShowWindow app2.m_window env.SDL_ShowWindow]
          if env.SDL_ShowWindow = false then
            ⟨SDL_AppResult.SDL_APP_FAILURE, app2,
              t6 ++ logError "Failed to create window: %s"⟩
          else
            ⟨SDL_AppResult.SDL_APP_CONTINUE, app2, t6⟩

/-- The member function `App::OnQuit` (App.cpp, lines 104 to 106). -/
def App.OnQuit (app : App) : Outcome SDL_AppResult :=
  ⟨SDL_AppResult.SDL_APP_SUCCESS, app, []⟩

/-- The member function `App::OnUpdate` (App.cpp, lines 139 to 141). -/
def App.OnUpdate (app : App) : Outcome SDL_AppResult :=
  ⟨SDL_AppResult.SDL_APP_CONTINUE, app, []⟩

/-- The values SDL returns to the calls of `App::OnRender`; `swapchainTexture` is what
`SDL_WaitAndAcquireGPUSwapchainTexture` stores through its out-parameter. -/
structure RenderEnv where
  SDL_AcquireGPUCommandBuffer : Ptr
  SDL_WaitAndAcquireGPUSwapchainTexture : Bool
  swapchainTexture : Ptr
  SDL_BeginGPURenderPass : Ptr
  SDL_SubmitGPUCommandBuffer : Bool

/-- The `colorTargetInfos` array of `App::OnRender`. -/
def colorTargetInfos (swapchainTexture : Ptr) : List SDL_GPUColorTargetInfo :=
  [{ texture := swapchainTexture,
     clear_color := { r := 1, g := 0, b := 0, a := 1 },
     load_op := SDL_GPULoadOp.SDL_GPU_LOADOP_CLEAR,
     store_op := SDL_GPUStoreOp.SDL_GPU_STOREOP_STORE }]

/-- The member function `App::OnRender` (App.cpp, lines 108 to 137).  The command buffer
and the render pass handle are used without a null test. -/
def App.OnRender (env : RenderEnv) (app : App) : Outcome SDL_AppResult :=
  let commandBuffer := env.SDL_AcquireGPUCommandBuffer
  let t1 : List PlatformOp :=
    [PlatformOp.SDL_AcquireGPUCommandBuffer app.m_gpuDevice commandBuffer,
     PlatformOp.SDL_WaitAndAcquireGPUSwapchainTexture commandBuffer app.m_window
       env.swapchainTexture env.SDL_WaitAndAcquireGPUSwapchainTexture]
  if env.SDL_WaitAndAcquireGPUSwapchainTexture = false then
    ⟨SDL_AppResult.SDL_APP_FAILURE, app,
      t1 ++ logError "Failed to acquire swapchain texture: %s"⟩
  else
    let swapchainTexture := env.swapchainTexture
    let t2 := t1 ++
      (if swapchainTexture = nullptr then []
       else
         let renderPass := env.SDL_BeginGPURenderPass
         [PlatformOp.SDL_BeginGPURenderPass commandBuffer
            (colorTargetInfos swapchainTexture) (colorTargetInfos swapchainTexture).length
            nullptr renderPass,
          PlatformOp.SDL_EndGPURenderPass renderPass])
    let t3 := t2 ++ [PlatformOp.SDL_SubmitGPUCommandBuffer commandBuffer
      env.SDL_SubmitGPUCommandBuffer]
    if env.SDL_SubmitGPUCommandBuffer = false then
      ⟨SDL_AppResult.SDL_APP_FAILURE, app,
        t3 ++ logError "Failed to submit command buffer: %s"⟩
    else
      ⟨SDL_AppResult.SDL_APP_CONTINUE, app, t3⟩

/-- The control flow of `App::Iterate` (App.cpp, lines 80 to 86) over its two steps:
the update step runs first and its result is returned when it is not continue; only
then does the render step run, on the controller the update step left. -/
def App.IterateWith (onUpdate onRender : App → Outcome SDL_AppResult) (app : App) :
    Outcome SDL_AppResult :=
  let u := onUpdate app
  if u.ret ≠ SDL_AppResult.SDL_APP_CONTINUE then u
  else
    let r := onRender u.app
    if r.ret ≠ SDL_AppResult.SDL_APP_CONTINUE then ⟨r.ret, r.app, u.trace ++ r.trace⟩
    else ⟨SDL_AppResult.SDL_APP_CONTINUE, r.app, u.trace ++ r.trace⟩

/-- The member function `App::Iterate`: the control flow above over `OnUpdate` and
`OnRender`. -/
def App.Iterate (env : RenderEnv) (app : App) : Outcome SDL_AppResult :=
  App.IterateWith App.OnUpdate (App.OnRender env) app

/-- The values SDL returns to the calls of `App::Event`: the window ID of a window. -/
structure EventEnv where
  SDL_GetWindowID : Ptr → Nat

/-- The member function `App::Event` (App.cpp, lines 88 to 97).  The close-request case has no `break`, so
it falls through to `default` when the IDs differ. -/
def App.Event (env : EventEnv) (app : App) (event : SDL_Event) : Outcome SDL_AppResult :=
  if event.type = SDL_EVENT_QUIT then
    App.OnQuit app
  else if event.type = SDL_EVENT_WINDOW_CLOSE_REQUESTED then
    let id := env.SDL_GetWindowID app.m_window
    let t := [PlatformOp.SDL_GetWindowID app.m_window id]
    if id = event.window.windowID then
      let q := App.OnQuit app
      ⟨q.ret, q.app, t ++ q.trace⟩
    else
      ⟨SDL_AppResult.SDL_APP_CONTINUE, app, t⟩
  else
    ⟨SDL_AppResult.SDL_APP_CONTINUE, app, []⟩

/-- The value SDL returns to the call of `App::Quit` that returns one. -/
structure QuitEnv where
  SDL_WaitForGPUIdle : Bool

/-- The member function `App::Quit` (App.cpp, lines 99 to 102), a `const` member that
returns nothing and ignores its argument. -/
def App.Quit (env : QuitEnv) (app : App) (_result : SDL_AppResult) : Outcome Unit :=
  ⟨(), app,
    [PlatformOp.SDL_WaitForGPUIdle app.m_gpuDevice env.SDL_WaitForGPUIdle,
     PlatformOp.SDL_ReleaseWindowFromGPUDevice app.m_gpuDevice app.m_window]⟩

/-- The implicit destructor of `App`: C++ destroys the data members in the reverse of
their order of declaration (App.h, lines 24 and 25), so the `m_gpuDevice` handle is
destroyed first and the `m_window` handle second; each `std::unique_ptr` runs its
deleter when it holds a non-null pointer. -/
def App.destructor (app : App) : List PlatformOp :=
  resetOps app.m_gpuDevice PlatformOp.SDL_DestroyGPUDevice ++
  resetOps app.m_window PlatformOp.SDL_DestroyWindow

/-- The callback `SDL_AppQuit` of main.cpp (lines 23 to 26): it calls `Quit` and nothing
else; in particular it does not delete the controller object. -/
def SDL_AppQuit (env : QuitEnv) (appstate : App) (result : SDL_AppResult) : Outcome Unit :=
  App.Quit env appstate result

/-- Shutting the controller down in the sense of the specification: `SDL_AppQuit`,
followed by the destruction of the controller object (ownership teardown). -/
def shutdown (env : QuitEnv) (app : App) (result : SDL_AppResult) : List PlatformOp :=
  (SDL_AppQuit env app result).trace ++ App.destructor (SDL_AppQuit env app result).app

/-! ## Predicates on platform calls -/

/-- Whether the call reported failure, by the conventions of the SDL functions: `false`
from a function that returns a bool for success, the null pointer from one that
returns a handle, and zero from `SDL_GetWindowID`.  Functions returning nothing,
the support query, the enumeration and the logging calls report no failure. -/
def PlatformOp.reportsFailure : PlatformOp → Bool
  | .SDL_SetAppMetadata _ _ _ ret => !ret
  | .SDL_Init _ ret => !ret
  | .SDL_CreateWindow _ _ _ _ ret => decide (ret = nullptr)
  | .SDL_CreateGPUDevice _ _ _ ret => decide (ret = nullptr)
  | .SDL_ClaimWindowForGPUDevice _ _ ret => !ret
  | .SDL_SetGPUSwapchainParameters _ _ _ _ ret => !ret
  | .SDL_ShowWindow _ ret => !ret
  | .SDL_GetWindowID _ ret => decide (ret = 0)
  | .SDL_WaitForGPUIdle _ ret => !ret
  | .SDL_AcquireGPUCommandBuffer _ ret => decide (ret = nullptr)
  | .SDL_WaitAndAcquireGPUSwapchainTexture _ _ _ ret => !ret
  | .SDL_BeginGPURenderPass _ _ _ _ ret => decide (ret = nullptr)
  | .SDL_SubmitGPUCommandBuffer _ ret => !ret
  | _ => false

/-- The calls whose returned value the source tests (`if (!...)`): five in `Init`
(lines 15, 21, 53, 60 and 72) and two in `OnRender` (lines 112 and 131). -/
def PlatformOp.resultTested : PlatformOp → Bool
  | .SDL_Init _ _ => true
  | .SDL_CreateWindow _ _ _ _ _ => true
  | .SDL_CreateGPUDevice _ _ _ _ => true
  | .SDL_ClaimWindowForGPUDevice _ _ _ => true
  | .SDL_ShowWindow _ _ => true
  | .SDL_WaitAndAcquireGPUSwapchainTexture _ _ _ _ => true
  | .SDL_SubmitGPUCommandBuffer _ _ => true
  | _ => false

/-- The calls of `SDL_ClaimWindowForGPUDevice`. -/
def PlatformOp.isClaim : PlatformOp → Bool
  | .SDL_ClaimWindowForGPUDevice _ _ _ => true
  | _ => false

/-- The calls that create the window, create the device, claim the window for the
device, or show the window. -/
def PlatformOp.isSetupStep : PlatformOp → Bool
  | .SDL_CreateWindow _ _ _ _ _ => true
  | .SDL_CreateGPUDevice _ _ _ _ => true
  | .SDL_ClaimWindowForGPUDevice _ _ _ => true
  | .SDL_ShowWindow _ _ => true
  | _ => false

/-- The calls of `SDL_SetGPUSwapchainParameters`. -/
def PlatformOp.isSetSwapchainParameters : PlatformOp → Bool
  | .SDL_SetGPUSwapchainParameters _ _ _ _ _ => true
  | _ => false

/-- The calls of `SDL_WindowSupportsGPUPresentMode`, with which `Init` opens the
negotiation of the present mode. -/
def PlatformOp.isPresentModeQuery : PlatformOp → Bool
  | .SDL_WindowSupportsGPUPresentMode _ _ _ _ => true
  | _ => false

/-- Whether `a` occurs in the trace with `b` somewhere after its first occurrence. -/
def occursBefore (a b : PlatformOp) : List PlatformOp → Bool
  | [] => false
  | x :: rest => if x = a then decide (b ∈ rest) else occursBefore a b rest

/-! ## The trace of `Init`, stage by stage

These lists name the calls `Init` has made when it reaches each of its tests; the
theorem `Init_paths` below proves that `App.Init` produces exactly them. -/

/-- The calls of `Init` up to the test of `SDL_Init` (line 15). -/
def initTraceStart (env : InitEnv) : List PlatformOp :=
  [PlatformOp.SDL_SetAppMetadata "Codotaku SDL" "1.0.0" "com.codotaku.codotakusdl"
     env.SDL_SetAppMetadata,
   PlatformOp.SDL_Init SDL_INIT_VIDEO env.SDL_Init]

/-- The calls of `Init` up to the test of the window handle (line 21). -/
def initTraceWindow (env : InitEnv) (app : App) : List PlatformOp :=
  initTraceStart env ++
    [PlatformOp.SDL_CreateWindow "Codotaku SDL" 800 600
       (SDL_WINDOW_RESIZABLE ||| SDL_WINDOW_HIDDEN) env.SDL_CreateWindow] ++
    resetOps app.m_window PlatformOp.SDL_DestroyWindow

/-- The calls of the driver enumeration and its logging (lines 28 to 35). -/
def initTraceDrivers (env : InitEnv) : List PlatformOp :=
  [PlatformOp.SDL_GetNumGPUDrivers env.SDL_GetNumGPUDrivers] ++
    (List.range env.SDL_GetNumGPUDrivers).map
      (fun i => PlatformOp.SDL_GetGPUDriver i (env.SDL_GetGPUDriver i)) ++
    [PlatformOp.SDL_Log "Supported GPU drivers:" []] ++
    ((List.range env.SDL_GetNumGPUDrivers).map env.SDL_GetGPUDriver).map
      (fun supportedGpuDrivers => PlatformOp.SDL_Log "    %s" [supportedGpuDrivers])

/-- The calls of `Init` up to the test of the device handle (line 53). -/
def initTraceDevice (env : InitEnv) (app : App) : List PlatformOp :=
  initTraceWindow env app ++ initTraceDrivers env ++
    [PlatformOp.SDL_CreateGPUDevice
       (SDL_GPU_SHADERFORMAT_SPIRV ||| SDL_GPU_SHADERFORMAT_DXIL |||
         SDL_GPU_SHADERFORMAT_MSL) true none (env.SDL_CreateGPUDevice none)] ++
    resetOps app.m_gpuDevice PlatformOp.SDL_DestroyGPUDevice

/-- The calls of `Init` up to the test of the claim (line 60). -/
def initTraceClaim (env : InitEnv) (app : App) : List PlatformOp :=
  initTraceDevice env app ++
    [PlatformOp.SDL_GetGPUDeviceDriver (env.SDL_CreateGPUDevice none)
       env.SDL_GetGPUDeviceDriver,
     PlatformOp.SDL_Log "Selected GPU driver: %s" [env.SDL_GetGPUDeviceDriver],
     PlatformOp.SDL_ClaimWindowForGPUDevice (env.SDL_CreateGPUDevice none)
       env.SDL_CreateWindow env.SDL_ClaimWindowForGPUDevice]

/-- The value of `presentMode` at line 70. -/
def negotiatedPresentMode (env : InitEnv) : SDL_GPUPresentMode :=
  if env.SDL_WindowSupportsGPUPresentMode SDL_GPUPresentMode.SDL_GPU_PRESENTMODE_MAILBOX
  then SDL_GPUPresentMode.SDL_GPU_PRESENTMODE_MAILBOX
  else SDL_GPUPresentMode.SDL_GPU_PRESENTMODE_VSYNC

/-- The calls of `Init` up to the test of `SDL_ShowWindow` (line 72). -/
def initTraceShow (env : InitEnv) (app : App) : List PlatformOp :=
  initTraceClaim env app ++
    [PlatformOp.SDL_WindowSupportsGPUPresentMode (env.SDL_CreateGPUDevice none)
       env.SDL_CreateWindow SDL_GPUPresentMode.SDL_GPU_PRESENTMODE_MAILBOX
       (env.SDL_WindowSupportsGPUPresentMode
         SDL_GPUPresentMode.SDL_GPU_PRESENTMODE_MAILBOX),
     PlatformOp.SDL_SetGPUSwapchainParameters (env.SDL_CreateGPUDevice none)
       env.SDL_CreateWindow
       SDL_GPUSwapchainComposition.SDL_GPU_SWAPCHAINCOMPOSITION_SDR
       (negotiatedPresentMode env) env.SDL_SetGPUSwapchainParameters,
     PlatformOp.SDL_ShowWindow env.SDL_CreateWindow env.SDL_ShowWindow]

/-! ## Concrete environments and inputs used to exercise the theorems -/

/-- A platform on which every call of `Init` succeeds: the window is at address 1, the
device at address 2, one driver is available and the mailbox mode is supported. -/
def envAllOk : InitEnv :=
  { SDL_SetAppMetadata := true
    SDL_Init := true
    SDL_CreateWindow := 1
    SDL_GetNumGPUDrivers := 1
    SDL_GetGPUDriver := fun _ => "vulkan"
    SDL_CreateGPUDevice := fun _ => 2
    SDL_GetGPUDeviceDriver := "vulkan"
    SDL_ClaimWindowForGPUDevice := true
    SDL_WindowSupportsGPUPresentMode := fun _ => true
    SDL_SetGPUSwapchainParameters := true
    SDL_ShowWindow := true }

/-- A headless platform: the video subsystem and the window come up, but there is no GPU
driver and device creation returns the null pointer. -/
def envHeadless : InitEnv :=
  { envAllOk with
    SDL_GetNumGPUDrivers := 0
    SDL_CreateGPUDevice := fun _ => nullptr }

/-- As `envAllOk`, except that `SDL_SetGPUSwapchainParameters` returns `false`. -/
def envSwapchainFails : InitEnv :=
  { envAllOk with SDL_SetGPUSwapchainParameters := false }

/-- As `envAllOk`, except that the mailbox present mode is not supported. -/
def envNoMailbox : InitEnv :=
  { envAllOk with SDL_WindowSupportsGPUPresentMode := fun _ => false }

/-- A controller after a successful `Init` on `envAllOk`. -/
def appRunning : App :=
  { m_window := 1, m_gpuDevice := 2 }

/-- Window IDs on the test platform: the window at address 1 has ID 7. -/
def eventEnv : EventEnv :=
  { SDL_GetWindowID := fun window => if window = 1 then 7 else 0 }

/-- A frame in which a swapchain texture (address 5) is handed out and all succeeds. -/
def renderEnvOk : RenderEnv :=
  { SDL_AcquireGPUCommandBuffer := 3
    SDL_WaitAndAcquireGPUSwapchainTexture := true
    swapchainTexture := 5
    SDL_BeginGPURenderPass := 4
    SDL_SubmitGPUCommandBuffer := true }

/-- An update step that fails without calling the platform, to exercise `IterateWith`. -/
def failingUpdate (app : App) : Outcome SDL_AppResult :=
  ⟨SDL_AppResult.SDL_APP_FAILURE, app, []⟩

/-- The idle wait of the test shutdown succeeds. -/
def quitEnv : QuitEnv :=
  { SDL_WaitForGPUIdle := true }

/-! ## Auxiliary facts about the traces -/

/-- With the empty preference list no driver name is requested. -/
theorem selectPreferredDriver_preferred (gpuDrivers : List String) :
    selectPreferredDriver gpuDrivers preferredGpuDrivers = ("", []) := rfl

/-- The six paths through `Init`, with the calls made along each. -/
theorem Init_paths (env : InitEnv) (app : App) :
    App.Init env app =
      if env.SDL_Init = false then
        ⟨SDL_AppResult.SDL_APP_FAILURE, app,
          initTraceStart env ++ logError "Failed to initialize SDL: %s"⟩
      else if env.SDL_CreateWindow = nullptr then
        ⟨SDL_AppResult.SDL_APP_FAILURE, { app with m_window := env.SDL_CreateWindow },
          initTraceWindow env app ++ logError "Failed to create window: %s"⟩
      else if env.SDL_CreateGPUDevice none = nullptr then
        ⟨SDL_AppResult.SDL_APP_FAILURE,
          { m_window := env.SDL_CreateWindow, m_gpuDevice := env.SDL_CreateGPUDevice none },
          initTraceDevice env app ++ logError "Failed to create GPU device: %s"⟩
      else if env.SDL_ClaimWindowForGPUDevice = false then
        ⟨SDL_AppResult.SDL_APP_FAILURE,
          { m_window := env.SDL_CreateWindow, m_gpuDevice := env.SDL_CreateGPUDevice none },
          initTraceClaim env app ++ logError "Failed to claim window for GPU device: %s"⟩
      else if env.SDL_ShowWindow = false then
        ⟨SDL_AppResult.SDL_APP_FAILURE,
          { m_window := env.SDL_CreateWindow, m_gpuDevice := env.SDL_CreateGPUDevice none },
          initTraceShow env app ++ logError "Failed to create window: %s"⟩
      else
        ⟨SDL_AppResult.SDL_APP_CONTINUE,
          { m_window := env.SDL_CreateWindow, m_gpuDevice := env.SDL_CreateGPUDevice none },
          initTraceShow env app⟩ := by
  simp only [App.Init, selectPreferredDriver_preferred, String.length, List.length_nil,
    ne_eq, not_true_eq_false, if_false, initTraceStart, initTraceWindow, initTraceDevice,
    initTraceDrivers, initTraceClaim, initTraceShow, negotiatedPresentMode,
    List.append_assoc, List.map_map]
  rfl

/-- A handle reset contributes nothing to a filter that rejects its deleter. -/
theorem filter_resetOps (p : PlatformOp → Bool) (old : Ptr) (deleter : Ptr → PlatformOp)
    (h : ∀ q, p (deleter q) = false) : (resetOps old deleter).filter p = [] := by
  unfold resetOps
  split_ifs <;> simp [h]

/-- The driver enumeration contributes nothing to a filter that rejects the
enumeration and logging calls. -/
theorem filter_initTraceDrivers (p : PlatformOp → Bool) (env : InitEnv)
    (h1 : ∀ n, p (PlatformOp.SDL_GetNumGPUDrivers n) = false)
    (h2 : ∀ i s, p (PlatformOp.SDL_GetGPUDriver i s) = false)
    (h3 : ∀ f a, p (PlatformOp.SDL_Log f a) = false) :
    (initTraceDrivers env).filter p = [] := by
  simp [initTraceDrivers, List.filter_eq_nil_iff, h1, h2, h3]

/-- Error logging contributes nothing to a filter that rejects the logging calls. -/
theorem filter_logError (p : PlatformOp → Bool) (fmt : String)
    (h1 : p PlatformOp.SDL_GetError = false)
    (h2 : ∀ c f, p (PlatformOp.SDL_LogError c f) = false) :
    (logError fmt).filter p = [] := by
  simp [logError, h1, h2]

/-- A tested call of `Init` that reports failure makes `Init` return failure. -/
theorem Init_tested_failure (env : InitEnv) (app : App) (op : PlatformOp)
    (htested : op.resultTested = true) (hfail : op.reportsFailure = true)
    (hop : op ∈ (App.Init env app).trace) :
    (App.Init env app).ret = SDL_AppResult.SDL_APP_FAILURE := by
  have hmem : op ∈ (App.Init env app).trace.filter PlatformOp.resultTested :=
    List.mem_filter.2 ⟨hop, htested⟩
  rw [Init_paths] at hmem ⊢
  split_ifs at hmem ⊢ with h1 h2 h3 h4 h5
  · rfl
  · rfl
  · rfl
  · rfl
  · rfl
  · exfalso
    simp only [initTraceShow, initTraceClaim, initTraceDevice, initTraceWindow,
      initTraceStart, List.filter_append, filter_resetOps, filter_initTraceDrivers,
      PlatformOp.resultTested, List.filter_cons, List.filter_nil, implies_true,
      if_true, if_false, Bool.false_eq_true, List.append_nil, List.nil_append,
      List.cons_append, List.mem_cons, List.mem_singleton, List.not_mem_nil,
      or_false] at hmem
    rcases hmem with rfl | rfl | rfl | rfl | rfl <;>
      simp_all [PlatformOp.reportsFailure]

/-- A tested call of `OnRender` that reports failure makes `OnRender` return failure. -/
theorem OnRender_tested_failure (env : RenderEnv) (app : App) (op : PlatformOp)
    (htested : op.resultTested = true) (hfail : op.reportsFailure = true)
    (hop : op ∈ (App.OnRender env app).trace) :
    (App.OnRender env app).ret = SDL_AppResult.SDL_APP_FAILURE := by
  cases op <;> simp only [PlatformOp.resultTested, Bool.false_eq_true] at htested <;>
    simp only [PlatformOp.reportsFailure] at hfail <;>
    simp only [App.OnRender, logError] at hop ⊢ <;>
    split_ifs at hop ⊢ <;> simp_all

/-- With the `OnUpdate` of the source, `Iterate` is `OnRender`. -/
theorem Iterate_eq_OnRender (env : RenderEnv) (app : App) :
    App.Iterate env app = App.OnRender env app := by
  simp only [App.Iterate, App.IterateWith, App.OnUpdate, ne_eq, not_true_eq_false,
    if_false, List.nil_append]
  split_ifs with h
  · rw [← h]
  · rfl

/-! ## Event -/

/-- C1: `App::Event` returns `SDL_APP_SUCCESS` when the event is a quit request, or a
window-close request whose window ID equals the ID of the window the controller
owns. -/
theorem Event_success (env : EventEnv) (app : App) (event : SDL_Event)
    (h : event.type = SDL_EVENT_QUIT ∨
      (event.type = SDL_EVENT_WINDOW_CLOSE_REQUESTED ∧
        event.window.windowID = env.SDL_GetWindowID app.m_window)) :
    (App.Event env app event).ret = SDL_AppResult.SDL_APP_SUCCESS := by
  rcases h with h | ⟨h, hid⟩
  · simp [App.Event, App.OnQuit, h]
  · have hne : SDL_EVENT_WINDOW_CLOSE_REQUESTED ≠ SDL_EVENT_QUIT := by decide
    simp [App.Event, App.OnQuit, h, hid, hne]

/-- Witness of C1: a close request for window ID 7, the ID of the owned window. -/
theorem Event_success_witness :
    (App.Event eventEnv appRunning
      { type := SDL_EVENT_WINDOW_CLOSE_REQUESTED, window := { windowID := 7 } }).ret
      = SDL_AppResult.SDL_APP_SUCCESS :=
  Event_success eventEnv appRunning
    { type := SDL_EVENT_WINDOW_CLOSE_REQUESTED, window := { windowID := 7 } }
    (Or.inr ⟨rfl, by decide⟩)

/-- C2: for an event that is neither a quit request nor a close request for the ID of
the owned window, `App::Event` returns `SDL_APP_CONTINUE`; in particular a close
request for another window ID returns continue; and `Event` never returns
`SDL_APP_FAILURE`. -/
theorem Event_continue (env : EventEnv) (app : App) (event : SDL_Event) :
    (¬ (event.type = SDL_EVENT_QUIT ∨
        (event.type = SDL_EVENT_WINDOW_CLOSE_REQUESTED ∧
          event.window.windowID = env.SDL_GetWindowID app.m_window)) →
      (App.Event env app event).ret = SDL_AppResult.SDL_APP_CONTINUE) ∧
    (event.type = SDL_EVENT_WINDOW_CLOSE_REQUESTED →
      event.window.windowID ≠ env.SDL_GetWindowID app.m_window →
      (App.Event env app event).ret = SDL_AppResult.SDL_APP_CONTINUE) ∧
    (App.Event env app event).ret ≠ SDL_AppResult.SDL_APP_FAILURE := by
  have hne : SDL_EVENT_WINDOW_CLOSE_REQUESTED ≠ SDL_EVENT_QUIT := by decide
  refine ⟨?_, ?_, ?_⟩
  · intro h
    rw [not_or] at h
    obtain ⟨hq, hc⟩ := h
    unfold App.Event
    rw [if_neg hq]
    by_cases ht : event.type = SDL_EVENT_WINDOW_CLOSE_REQUESTED
    · have hid : env.SDL_GetWindowID app.m_window ≠ event.window.windowID :=
        fun e => hc ⟨ht, e.symm⟩
      simp [ht, hid]
    · simp [ht]
  · intro ht hid
    have hid2 : env.SDL_GetWindowID app.m_window ≠ event.window.windowID :=
      fun e => hid e.symm
    simp [App.Event, ht, hne, hid2]
  · simp only [App.Event, App.OnQuit]
    split_ifs <;> simp

/-- Witness of C2: a close request for window ID 8 while the owned window has ID 7. -/
theorem Event_continue_witness :
    (App.Event eventEnv appRunning
      { type := SDL_EVENT_WINDOW_CLOSE_REQUESTED, window := { windowID := 8 } }).ret
      = SDL_AppResult.SDL_APP_CONTINUE :=
  (Event_continue eventEnv appRunning
    { type := SDL_EVENT_WINDOW_CLOSE_REQUESTED, window := { windowID := 8 } }).2.1
    rfl (by decide)

/-! ## Iterate -/

/-- C3: `App::Iterate` returns the result of the update step when that is not continue,
and then performs nothing of the render step (its calls are exactly those of the
update step); otherwise it returns the result of the render step, which runs after
the update step.  With the `OnUpdate` of the source, which always continues,
`Iterate` returns what `OnRender` returns. -/
theorem Iterate_short_circuit (onUpdate onRender : App → Outcome SDL_AppResult)
    (env : RenderEnv) (app : App) :
    ((onUpdate app).ret ≠ SDL_AppResult.SDL_APP_CONTINUE →
      (App.IterateWith onUpdate onRender app).ret = (onUpdate app).ret ∧
      (App.IterateWith onUpdate onRender app).trace = (onUpdate app).trace) ∧
    ((onUpdate app).ret = SDL_AppResult.SDL_APP_CONTINUE →
      (App.IterateWith onUpdate onRender app).ret = (onRender (onUpdate app).app).ret ∧
      (App.IterateWith onUpdate onRender app).trace =
        (onUpdate app).trace ++ (onRender (onUpdate app).app).trace) ∧
    (App.Iterate env app).ret = (App.OnRender env app).ret ∧
    (App.Iterate env app).trace = (App.OnRender env app).trace := by
  refine ⟨?_, ?_, ?_, ?_⟩
  · intro h
    simp [App.IterateWith, h]
  · intro h
    unfold App.IterateWith
    simp only [h, ne_eq, not_true_eq_false, if_false]
    split_ifs with hr
    · exact ⟨hr.symm, rfl⟩
    · exact ⟨rfl, rfl⟩
  · rw [Iterate_eq_OnRender]
  · rw [Iterate_eq_OnRender]

/-- Witness of C3: an update step that fails stops `Iterate` before any render call. -/
theorem Iterate_short_circuit_witness :
    (App.IterateWith failingUpdate (App.OnRender renderEnvOk) appRunning).ret
      = SDL_AppResult.SDL_APP_FAILURE ∧
    (App.IterateWith failingUpdate (App.OnRender renderEnvOk) appRunning).trace = [] :=
  (Iterate_short_circuit failingUpdate (App.OnRender renderEnvOk) renderEnvOk
    appRunning).1 (by decide)

/-! ## Init -/

/-- C4: `App::Init` returns `SDL_APP_CONTINUE` exactly when `SDL_Init`, the creation of
the window, the creation of the GPU device, the claim of the window and the showing
of the window all succeed, and `SDL_APP_FAILURE` otherwise; in particular it returns
failure when device creation fails, and it never returns `SDL_APP_SUCCESS`. -/
theorem Init_result (env : InitEnv) (app : App) :
    ((App.Init env app).ret = SDL_AppResult.SDL_APP_CONTINUE ↔
      (env.SDL_Init = true ∧ env.SDL_CreateWindow ≠ nullptr ∧
        env.SDL_CreateGPUDevice none ≠ nullptr ∧
        env.SDL_ClaimWindowForGPUDevice = true ∧ env.SDL_ShowWindow = true)) ∧
    ((App.Init env app).ret ≠ SDL_AppResult.SDL_APP_CONTINUE →
      (App.Init env app).ret = SDL_AppResult.SDL_APP_FAILURE) ∧
    (env.SDL_CreateGPUDevice none = nullptr →
      (App.Init env app).ret = SDL_AppResult.SDL_APP_FAILURE) ∧
    (App.Init env app).ret ≠ SDL_AppResult.SDL_APP_SUCCESS := by
  rw [Init_paths]
  refine ⟨?_, ?_, ?_, ?_⟩ <;> split_ifs <;> simp_all

/-- Witness of C4: `Init` continues on the platform where all succeeds, and fails on the
headless platform, where device creation returns the null pointer. -/
theorem Init_result_witness :
    (App.Init envAllOk App.ctor).ret = SDL_AppResult.SDL_APP_CONTINUE ∧
    (App.Init envHeadless App.ctor).ret = SDL_AppResult.SDL_APP_FAILURE :=
  ⟨(Init_result envAllOk App.ctor).1.2
      ⟨rfl, by decide, by decide, rfl, rfl⟩,
   (Init_result envHeadless App.ctor).2.2.1 rfl⟩

/-- C6: in a run of `App::Init` that returns `SDL_APP_CONTINUE` there is exactly one
claim of the window for the device.  The creation, claim and show calls of the run
are, in order: the creation of the window (with the hidden flag), the creation of
the device, the claim of that window for that device, and the successful showing of
that window, which is the last call of the run.  The controller holds the two handles
on return, both non-null. -/
theorem Init_claim_once (env : InitEnv) (app : App)
    (h : (App.Init env app).ret = SDL_AppResult.SDL_APP_CONTINUE) :
    (App.Init env app).trace.countP PlatformOp.isClaim = 1 ∧
    (App.Init env app).trace.filter PlatformOp.isSetupStep =
      [PlatformOp.SDL_CreateWindow "Codotaku SDL" 800 600
         (SDL_WINDOW_RESIZABLE ||| SDL_WINDOW_HIDDEN) env.SDL_CreateWindow,
       PlatformOp.SDL_CreateGPUDevice
         (SDL_GPU_SHADERFORMAT_SPIRV ||| SDL_GPU_SHADERFORMAT_DXIL |||
           SDL_GPU_SHADERFORMAT_MSL) true none (env.SDL_CreateGPUDevice none),
       PlatformOp.SDL_ClaimWindowForGPUDevice (env.SDL_CreateGPUDevice none)
         env.SDL_CreateWindow true,
       PlatformOp.SDL_ShowWindow env.SDL_CreateWindow true] ∧
    (App.Init env app).trace.getLast? =
      some (PlatformOp.SDL_ShowWindow env.SDL_CreateWindow true) ∧
    (SDL_WINDOW_RESIZABLE ||| SDL_WINDOW_HIDDEN) &&& SDL_WINDOW_HIDDEN = SDL_WINDOW_HIDDEN ∧
    (App.Init env app).app =
      { m_window := env.SDL_CreateWindow, m_gpuDevice := env.SDL_CreateGPUDevice none } ∧
    env.SDL_CreateWindow ≠ nullptr ∧ env.SDL_CreateGPUDevice none ≠ nullptr := by
  rw [Init_paths] at h ⊢
  split_ifs at h ⊢ with h1 h2 h3 h4 h5
  have h4t : env.SDL_ClaimWindowForGPUDevice = true := by simpa using h4
  have h5t : env.SDL_ShowWindow = true := by simpa using h5
  refine ⟨?_, ?_, ?_, by decide, rfl, h2, h3⟩
  · rw [List.countP_eq_length_filter]
    simp only [initTraceShow, initTraceClaim, initTraceDevice, initTraceWindow,
      initTraceStart, List.filter_append, filter_resetOps, filter_initTraceDrivers,
      PlatformOp.isClaim, List.filter_cons, List.filter_nil, implies_true,
      if_true, if_false, Bool.false_eq_true, List.append_nil, List.nil_append,
      List.cons_append, List.length_singleton]
  · simp only [initTraceShow, initTraceClaim, initTraceDevice, initTraceWindow,
      initTraceStart, List.filter_append, filter_resetOps, filter_initTraceDrivers,
      PlatformOp.isSetupStep, List.filter_cons, List.filter_nil, implies_true,
      if_true, if_false, Bool.false_eq_true, List.append_nil, List.nil_append,
      List.cons_append, h4t, h5t]
  · simp [initTraceShow, h5t]

/-- Witness of C6: the run of `Init` from a fresh controller where all succeeds. -/
theorem Init_claim_once_witness :
    (App.Init envAllOk App.ctor).trace.countP PlatformOp.isClaim = 1 ∧
    (App.Init envAllOk App.ctor).trace.getLast? = some (PlatformOp.SDL_ShowWindow 1 true) ∧
    (App.Init envAllOk App.ctor).app = appRunning :=
  ⟨(Init_claim_once envAllOk App.ctor (by decide)).1,
   (Init_claim_once envAllOk App.ctor (by decide)).2.2.1,
   (Init_claim_once envAllOk App.ctor (by decide)).2.2.2.2.1⟩

/-- C10: in a run of `App::Init` that reaches the negotiation of the present mode (it
makes the support query), the query asks about the mailbox mode for the device and
window pair, and the swapchain parameters are set exactly once, with the SDR
composition and with the mailbox mode when the query answered yes and the vsync
mode otherwise.  In any run, every call that sets the swapchain parameters asks for
the SDR composition and that present mode, so no other mode is requested. -/
theorem Init_present_mode (env : InitEnv) (app : App) :
    ((∃ op ∈ (App.Init env app).trace, op.isPresentModeQuery = true) →
      (App.Init env app).trace.filter PlatformOp.isPresentModeQuery =
        [PlatformOp.SDL_WindowSupportsGPUPresentMode (env.SDL_CreateGPUDevice none)
           env.SDL_CreateWindow SDL_GPUPresentMode.SDL_GPU_PRESENTMODE_MAILBOX
           (env.SDL_WindowSupportsGPUPresentMode
             SDL_GPUPresentMode.SDL_GPU_PRESENTMODE_MAILBOX)] ∧
      (App.Init env app).trace.filter PlatformOp.isSetSwapchainParameters =
        [PlatformOp.SDL_SetGPUSwapchainParameters (env.SDL_CreateGPUDevice none)
           env.SDL_CreateWindow
           SDL_GPUSwapchainComposition.SDL_GPU_SWAPCHAINCOMPOSITION_SDR
           (if env.SDL_WindowSupportsGPUPresentMode
                SDL_GPUPresentMode.SDL_GPU_PRESENTMODE_MAILBOX = true
            then SDL_GPUPresentMode.SDL_GPU_PRESENTMODE_MAILBOX
            else SDL_GPUPresentMode.SDL_GPU_PRESENTMODE_VSYNC)
           env.SDL_SetGPUSwapchainParameters]) ∧
    (∀ device window composition mode ret,
      PlatformOp.SDL_SetGPUSwapchainParameters device window composition mode ret
        ∈ (App.Init env app).trace →
      composition = SDL_GPUSwapchainComposition.SDL_GPU_SWAPCHAINCOMPOSITION_SDR ∧
      mode = (if env.SDL_WindowSupportsGPUPresentMode
                SDL_GPUPresentMode.SDL_GPU_PRESENTMODE_MAILBOX = true
              then SDL_GPUPresentMode.SDL_GPU_PRESENTMODE_MAILBOX
              else SDL_GPUPresentMode.SDL_GPU_PRESENTMODE_VSYNC)) := by
  constructor
  · rintro ⟨op, hop, hq⟩
    have hmem : op ∈ (App.Init env app).trace.filter PlatformOp.isPresentModeQuery :=
      List.mem_filter.2 ⟨hop, hq⟩
    rw [Init_paths] at hmem ⊢
    split_ifs at hmem ⊢ <;>
      simp only [initTraceShow, initTraceClaim, initTraceDevice, initTraceWindow,
        initTraceStart, List.filter_append, filter_resetOps, filter_initTraceDrivers,
        filter_logError, PlatformOp.isPresentModeQuery,
        PlatformOp.isSetSwapchainParameters, negotiatedPresentMode,
        List.filter_cons, List.filter_nil, implies_true,
        if_true, if_false, Bool.false_eq_true, List.append_nil, List.nil_append,
        List.cons_append, List.not_mem_nil] at hmem ⊢ <;>
      simp [*]
  · intro device window composition mode ret hop
    have hmem : PlatformOp.SDL_SetGPUSwapchainParameters device window composition mode ret
        ∈ (App.Init env app).trace.filter PlatformOp.isSetSwapchainParameters :=
      List.mem_filter.2 ⟨hop, rfl⟩
    rw [Init_paths] at hmem
    split_ifs at hmem <;>
      simp only [initTraceShow, initTraceClaim, initTraceDevice, initTraceWindow,
        initTraceStart, List.filter_append, filter_resetOps, filter_initTraceDrivers,
        filter_logError, PlatformOp.isSetSwapchainParameters, negotiatedPresentMode,
        List.filter_cons, List.filter_nil, implies_true,
        if_true, if_false, Bool.false_eq_true, List.append_nil, List.nil_append,
        List.cons_append, List.not_mem_nil, List.mem_singleton,
        PlatformOp.SDL_SetGPUSwapchainParameters.injEq] at hmem <;>
      exact ⟨hmem.2.2.1, hmem.2.2.2.1⟩

/-- Witness of C10: without mailbox support the single request is for the vsync mode. -/
theorem Init_present_mode_witness :
    (App.Init envNoMailbox App.ctor).trace.filter PlatformOp.isSetSwapchainParameters =
      [PlatformOp.SDL_SetGPUSwapchainParameters 2 1
         SDL_GPUSwapchainComposition.SDL_GPU_SWAPCHAINCOMPOSITION_SDR
         SDL_GPUPresentMode.SDL_GPU_PRESENTMODE_VSYNC true] :=
  ((Init_present_mode envNoMailbox App.ctor).1
    ⟨PlatformOp.SDL_WindowSupportsGPUPresentMode 2 1
      SDL_GPUPresentMode.SDL_GPU_PRESENTMODE_MAILBOX false, by decide, rfl⟩).2

/-! ## The failure policy -/

/-- C5 as stated fails: when `SDL_SetGPUSwapchainParameters` reports failure and every
other call succeeds, `Init` performs that call, is told `false`, and still returns
`SDL_APP_CONTINUE`. -/
theorem Init_swapchain_failure_counterexample :
    PlatformOp.SDL_SetGPUSwapchainParameters 2 1
        SDL_GPUSwapchainComposition.SDL_GPU_SWAPCHAINCOMPOSITION_SDR
        SDL_GPUPresentMode.SDL_GPU_PRESENTMODE_MAILBOX false
      ∈ (App.Init envSwapchainFails App.ctor).trace ∧
    (PlatformOp.SDL_SetGPUSwapchainParameters 2 1
        SDL_GPUSwapchainComposition.SDL_GPU_SWAPCHAINCOMPOSITION_SDR
        SDL_GPUPresentMode.SDL_GPU_PRESENTMODE_MAILBOX false).reportsFailure = true ∧
    (App.Init envSwapchainFails App.ctor).ret = SDL_AppResult.SDL_APP_CONTINUE ∧
    (App.Init envSwapchainFails App.ctor).ret ≠ SDL_AppResult.SDL_APP_FAILURE := by
  refine ⟨by decide, by decide, by decide, by decide⟩

/-- C5, amended: each platform call whose result the source tests is fatal.  If a tested
call made by `Init` reports failure, `Init` returns `SDL_APP_FAILURE`; if a tested
call made by the render step reports failure, `OnRender` and with it `Iterate` return
`SDL_APP_FAILURE`.  The results of the calls that are not tested do not enter the
outcome: the value returned by `Init` is the same whatever `SDL_SetAppMetadata` and
`SDL_SetGPUSwapchainParameters` report, and the value returned by the render step is
the same whatever `SDL_AcquireGPUCommandBuffer` and `SDL_BeginGPURenderPass` return. -/
theorem tested_failure_fatal (env : InitEnv) (renv : RenderEnv) (app : App)
    (op : PlatformOp) (htested : op.resultTested = true)
    (hfail : op.reportsFailure = true) :
    (op ∈ (App.Init env app).trace →
      (App.Init env app).ret = SDL_AppResult.SDL_APP_FAILURE) ∧
    (op ∈ (App.OnRender renv app).trace →
      (App.OnRender renv app).ret = SDL_AppResult.SDL_APP_FAILURE ∧
      (App.Iterate renv app).ret = SDL_AppResult.SDL_APP_FAILURE) ∧
    (∀ b c : Bool,
      (App.Init { env with SDL_SetAppMetadata := b, SDL_SetGPUSwapchainParameters := c }
        app).ret = (App.Init env app).ret) ∧
    (∀ p q : Ptr,
      (App.OnRender { renv with SDL_AcquireGPUCommandBuffer := p,
                                SDL_BeginGPURenderPass := q } app).ret
        = (App.OnRender renv app).ret) := by
  refine ⟨Init_tested_failure env app op htested hfail, ?_, ?_, ?_⟩
  · intro hop
    rw [Iterate_eq_OnRender]
    exact ⟨OnRender_tested_failure renv app op htested hfail hop,
      OnRender_tested_failure renv app op htested hfail hop⟩
  · intro b c
    rw [Init_paths, Init_paths]
    split_ifs <;> rfl
  · intro p q
    simp only [App.OnRender]
    split_ifs <;> rfl

/-- Witness of the amended C5: on the headless platform the device creation, a tested
call, returns the null pointer and `Init` returns failure. -/
theorem tested_failure_fatal_witness :
    (App.Init envHeadless App.ctor).ret = SDL_AppResult.SDL_APP_FAILURE :=
  (tested_failure_fatal envHeadless renderEnvOk App.ctor
    (PlatformOp.SDL_CreateGPUDevice
      (SDL_GPU_SHADERFORMAT_SPIRV ||| SDL_GPU_SHADERFORMAT_DXIL |||
        SDL_GPU_SHADERFORMAT_MSL) true none nullptr) rfl rfl).1 (by decide)

/-! ## The render step -/

/-- C9: the render step `App::OnRender`.  If the acquisition of the swapchain texture
fails it returns `SDL_APP_FAILURE` without beginning a pass or submitting.  If the
acquisition succeeds and a texture was returned, it begins one render pass on a
single colour target that clears that texture to the colour (1, 0, 0, 1), ends that
pass at once, and submits the command buffer.  If the acquisition succeeds and no
texture was returned, it begins no pass and submits the command buffer.  In both of
these cases it returns `SDL_APP_FAILURE` when the submission fails and
`SDL_APP_CONTINUE` otherwise. -/
theorem OnRender_behaviour (env : RenderEnv) (app : App) :
    (env.SDL_WaitAndAcquireGPUSwapchainTexture = false →
      (App.OnRender env app).ret = SDL_AppResult.SDL_APP_FAILURE ∧
      (App.OnRender env app).trace =
        [PlatformOp.SDL_AcquireGPUCommandBuffer app.m_gpuDevice
           env.SDL_AcquireGPUCommandBuffer,
         PlatformOp.SDL_WaitAndAcquireGPUSwapchainTexture env.SDL_AcquireGPUCommandBuffer
           app.m_window env.swapchainTexture false] ++
        logError "Failed to acquire swapchain texture: %s") ∧
    (env.SDL_WaitAndAcquireGPUSwapchainTexture = true →
      env.swapchainTexture ≠ nullptr →
      (App.OnRender env app).trace =
        [PlatformOp.SDL_AcquireGPUCommandBuffer app.m_gpuDevice
           env.SDL_AcquireGPUCommandBuffer,
         PlatformOp.SDL_WaitAndAcquireGPUSwapchainTexture env.SDL_AcquireGPUCommandBuffer
           app.m_window env.swapchainTexture true,
         PlatformOp.SDL_BeginGPURenderPass env.SDL_AcquireGPUCommandBuffer
           [{ texture := env.swapchainTexture,
              clear_color := { r := 1, g := 0, b := 0, a := 1 },
              load_op := SDL_GPULoadOp.SDL_GPU_LOADOP_CLEAR,
              store_op := SDL_GPUStoreOp.SDL_GPU_STOREOP_STORE }]
           1 nullptr env.SDL_BeginGPURenderPass,
         PlatformOp.SDL_EndGPURenderPass env.SDL_BeginGPURenderPass,
         PlatformOp.SDL_SubmitGPUCommandBuffer env.SDL_AcquireGPUCommandBuffer
           env.SDL_SubmitGPUCommandBuffer] ++
        (if env.SDL_SubmitGPUCommandBuffer = false then
          logError "Failed to submit command buffer: %s" else [])) ∧
    (env.SDL_WaitAndAcquireGPUSwapchainTexture = true →
      env.swapchainTexture = nullptr →
      (App.OnRender env app).trace =
        [PlatformOp.SDL_AcquireGPUCommandBuffer app.m_gpuDevice
           env.SDL_AcquireGPUCommandBuffer,
         PlatformOp.SDL_WaitAndAcquireGPUSwapchainTexture env.SDL_AcquireGPUCommandBuffer
           app.m_window nullptr true,
         PlatformOp.SDL_SubmitGPUCommandBuffer env.SDL_AcquireGPUCommandBuffer
           env.SDL_SubmitGPUCommandBuffer] ++
        (if env.SDL_SubmitGPUCommandBuffer = false then
          logError "Failed to submit command buffer: %s" else [])) ∧
    (env.SDL_WaitAndAcquireGPUSwapchainTexture = true →
      (App.OnRender env app).ret =
        if env.SDL_SubmitGPUCommandBuffer = false then SDL_AppResult.SDL_APP_FAILURE
        else SDL_AppResult.SDL_APP_CONTINUE) := by
  refine ⟨?_, ?_, ?_, ?_⟩
  · intro h
    simp [App.OnRender, h]
  · intro h ht
    cases hs : env.SDL_SubmitGPUCommandBuffer <;>
      simp [App.OnRender, h, ht, hs, colorTargetInfos]
  · intro h ht
    cases hs : env.SDL_SubmitGPUCommandBuffer <;> simp [App.OnRender, h, ht, hs]
  · intro h
    cases hs : env.SDL_SubmitGPUCommandBuffer <;> simp [App.OnRender, h, hs]

/-- Witness of C9: a frame with a texture, on the controller holding window 1 and
device 2. -/
theorem OnRender_behaviour_witness :
    (App.OnRender renderEnvOk appRunning).trace =
      [PlatformOp.SDL_AcquireGPUCommandBuffer 2 3,
       PlatformOp.SDL_WaitAndAcquireGPUSwapchainTexture 3 1 5 true,
       PlatformOp.SDL_BeginGPURenderPass 3
         [{ texture := 5,
            clear_color := { r := 1, g := 0, b := 0, a := 1 },
            load_op := SDL_GPULoadOp.SDL_GPU_LOADOP_CLEAR,
            store_op := SDL_GPUStoreOp.SDL_GPU_STOREOP_STORE }]
         1 nullptr 4,
       PlatformOp.SDL_EndGPURenderPass 4,
       PlatformOp.SDL_SubmitGPUCommandBuffer 3 true] ∧
    (App.OnRender renderEnvOk appRunning).ret = SDL_AppResult.SDL_APP_CONTINUE :=
  ⟨(OnRender_behaviour renderEnvOk appRunning).2.1 rfl (by decide),
   (OnRender_behaviour renderEnvOk appRunning).2.2.2 rfl⟩

/-! ## Quit and teardown -/

/-- C7: whatever the result argument, `App::Quit` makes exactly two platform calls, the
wait for the GPU device to become idle and then the release of the window from the
device; it leaves both handles of the controller as they were, and no call of it is a
render call or a destroyer. -/
theorem Quit_trace (env : QuitEnv) (app : App) (result : SDL_AppResult) :
    (App.Quit env app result).trace =
      [PlatformOp.SDL_WaitForGPUIdle app.m_gpuDevice env.SDL_WaitForGPUIdle,
       PlatformOp.SDL_ReleaseWindowFromGPUDevice app.m_gpuDevice app.m_window] ∧
    (App.Quit env app result).trace.length = 2 ∧
    (App.Quit env app result).app = app ∧
    (∀ p, PlatformOp.SDL_DestroyWindow p ∉ (App.Quit env app result).trace) ∧
    (∀ p, PlatformOp.SDL_DestroyGPUDevice p ∉ (App.Quit env app result).trace) ∧
    (∀ (renv : RenderEnv) (a : App) (op : PlatformOp),
      op ∈ (App.OnRender renv a).trace → op ∉ (App.Quit env app result).trace) := by
  refine ⟨rfl, rfl, rfl, ?_, ?_, ?_⟩
  · intro p
    simp [App.Quit]
  · intro p
    simp [App.Quit]
  · intro renv a op hop hq
    simp only [App.Quit, List.mem_cons, List.mem_singleton, List.not_mem_nil,
      or_false] at hq
    rcases hq with rfl | rfl <;>
      (simp only [App.OnRender, logError] at hop; split_ifs at hop <;> simp at hop)

/-- Witness of C7: `Quit` on the controller holding window 1 and device 2. -/
theorem Quit_trace_witness :
    (App.Quit quitEnv appRunning SDL_AppResult.SDL_APP_SUCCESS).trace =
      [PlatformOp.SDL_WaitForGPUIdle 2 true,
       PlatformOp.SDL_ReleaseWindowFromGPUDevice 2 1] :=
  (Quit_trace quitEnv appRunning SDL_AppResult.SDL_APP_SUCCESS).1

/-- C8 as stated fails: shutting down a controller holding window 1 and device 2 runs
the destroyer of the device before the destroyer of the window, not after it. -/
theorem teardown_window_first_counterexample :
    shutdown quitEnv appRunning SDL_AppResult.SDL_APP_SUCCESS =
      [PlatformOp.SDL_WaitForGPUIdle 2 true,
       PlatformOp.SDL_ReleaseWindowFromGPUDevice 2 1,
       PlatformOp.SDL_DestroyGPUDevice 2,
       PlatformOp.SDL_DestroyWindow 1] ∧
    shutdown quitEnv appRunning SDL_AppResult.SDL_APP_SUCCESS ≠
      [PlatformOp.SDL_WaitForGPUIdle 2 true,
       PlatformOp.SDL_ReleaseWindowFromGPUDevice 2 1,
       PlatformOp.SDL_DestroyWindow 1,
       PlatformOp.SDL_DestroyGPUDevice 2] ∧
    occursBefore (PlatformOp.SDL_DestroyWindow 1) (PlatformOp.SDL_DestroyGPUDevice 2)
      (shutdown quitEnv appRunning SDL_AppResult.SDL_APP_SUCCESS) = false := by
  refine ⟨by decide, by decide, by decide⟩

/-- C8, amended: shutting down a controller that holds a window and a device idles the
device, releases the window from it, destroys the device and then destroys the
window: the destroyer of the device handle runs before the destroyer of the window
handle, and both run after the release. -/
theorem shutdown_order (env : QuitEnv) (app : App) (result : SDL_AppResult)
    (hw : app.m_window ≠ nullptr) (hd : app.m_gpuDevice ≠ nullptr) :
    shutdown env app result =
      [PlatformOp.SDL_WaitForGPUIdle app.m_gpuDevice env.SDL_WaitForGPUIdle,
       PlatformOp.SDL_ReleaseWindowFromGPUDevice app.m_gpuDevice app.m_window,
       PlatformOp.SDL_DestroyGPUDevice app.m_gpuDevice,
       PlatformOp.SDL_DestroyWindow app.m_window] := by
  simp [shutdown, SDL_AppQuit, App.Quit, App.destructor, resetOps, hw, hd]

/-- Witness of the amended C8, on the controller holding window 1 and device 2. -/
theorem shutdown_order_witness :
    shutdown quitEnv appRunning SDL_AppResult.SDL_APP_FAILURE =
      [PlatformOp.SDL_WaitForGPUIdle 2 true,
       PlatformOp.SDL_ReleaseWindowFromGPUDevice 2 1,
       PlatformOp.SDL_DestroyGPUDevice 2,
       PlatformOp.SDL_DestroyWindow 1] :=
  shutdown_order quitEnv appRunning SDL_AppResult.SDL_APP_FAILURE (by decide) (by decide)

end CodotakuSDL
